import Mathlib

/-!
Verification of the GYMSPHERE streak service (`src/services/streak_service.py`).

The embedding models the two core functions of the service:
* `estimate_transformation_days` — a pure estimator over optional weights
  (Python `None` becomes `Option ℚ`; Python `int(x)` on a nonnegative value
  becomes the floor);
* `calculate_streaks` / `compute_streaks` — a backward scan over a user's
  daily plan entries with a conditional write-back of the two streak fields.

Dates are modelled as day numbers in `ℤ`; the ORM store is a record of
plans, entries and users, and the queries of the Python code
(`filter_by`, `order_by ... desc`, `first`, `get`) are list operations.
The persistence side effect is made explicit: `calculate_streaks` returns
the result dictionary together with the (possibly updated) user record and
a flag recording whether `db.session.commit()` ran.
-/

namespace GymSphere

/-- Python's `str.lower()`, modelled character-wise (the goal strings of
the rate table are ASCII, where per-character lowering agrees with
`str.lower()`). -/
def lower (s : String) : String := ⟨s.data.map Char.toLower⟩

/-- Weekly rate lookup of `estimate_transformation_days`
(`streak_service.py` lines 20-34): a normalized, lower-cased goal string
selects one of four constant rates. -/
def rate_per_week (goal_lower : String) : ℚ :=
  if goal_lower = "fat_loss" ∨ goal_lower = "lose" ∨ goal_lower = "weight_loss" then
    55/100
  else if goal_lower = "muscle_gain" ∨ goal_lower = "gain" ∨ goal_lower = "bulk" then
    3/10
  else if goal_lower = "recomposition" ∨ goal_lower = "recomp" then
    2/10
  else
    4/10

/-- Embedding of `estimate_transformation_days(weight, target, goal)`.
`None` weights are `Option.none`; `(goal or "").lower()` becomes
`lower (goal.getD "")`; Python's `int(weeks_needed * 7)` truncates, and the
value is nonnegative here, so it is the floor. -/
def estimate_transformation_days (weight target : Option ℚ) (goal : Option String) : ℤ :=
  match weight, target with
  | some w, some t =>
    let delta := t - w
    let kg_to_change := |delta|
    if kg_to_change < 1/10 then 0
    else
      let goal_lower := lower (goal.getD "")
      let rate := rate_per_week goal_lower
      let weeks_needed := kg_to_change / rate
      max 7 ⌊weeks_needed * 7⌋
  | _, _ => 0

/-- `DailyPlanEntry` row: plan foreign key, calendar date (day number),
and the three boolean flags read by the streak scan. -/
structure DailyPlanEntry where
  plan_id : ℕ
  date : ℤ
  is_exercise_day : Bool
  is_exercise_completed : Bool
  is_diet_completed : Bool
  deriving DecidableEq, Repr

/-- `UserPlan` row: primary key, owning user, creation timestamp. -/
structure UserPlan where
  id : ℕ
  user_id : ℕ
  created_at : ℤ
  deriving DecidableEq, Repr

/-- `User` row restricted to the fields the streak service touches. -/
structure User where
  id : ℕ
  workout_streak : ℤ
  diet_streak : ℤ
  deriving DecidableEq, Repr

/-- The external store: the three tables the service queries. -/
structure DB where
  plans : List UserPlan
  entries : List DailyPlanEntry
  users : List User
  deriving Repr

/-- `UserPlan.query.filter_by(user_id=...).order_by(created_at.desc()).first()`:
the first plan of maximal `created_at` among the user's plans (a stable
descending sort followed by `first`). -/
def firstPlanByCreatedDesc : List UserPlan → Option UserPlan
  | [] => none
  | p :: ps =>
    match firstPlanByCreatedDesc ps with
    | none => some p
    | some q => if p.created_at < q.created_at then some q else some p

/-- Insert an entry into a list kept in descending date order. -/
def insertByDateDesc (e : DailyPlanEntry) : List DailyPlanEntry → List DailyPlanEntry
  | [] => [e]
  | f :: fs => if f.date ≤ e.date then e :: f :: fs else f :: insertByDateDesc e fs

/-- Sort entries by date descending (`order_by(DailyPlanEntry.date.desc())`). -/
def sortByDateDesc : List DailyPlanEntry → List DailyPlanEntry
  | [] => []
  | e :: es => insertByDateDesc e (sortByDateDesc es)

/-- The entry query of `calculate_streaks`: entries of the plan with
`date <= today`, ordered by date descending. -/
def fetchEntries (db : DB) (plan_id : ℕ) (today : ℤ) : List DailyPlanEntry :=
  sortByDateDesc ((db.entries.filter fun e => e.plan_id == plan_id && e.date ≤ today))

/-- Workout success predicate of the scan loop:
`(e.is_exercise_day and e.is_exercise_completed) or (not e.is_exercise_day)`. -/
def is_success_w (e : DailyPlanEntry) : Bool :=
  (e.is_exercise_day && e.is_exercise_completed) || !e.is_exercise_day

/-- The workout `for` loop from `start_check_idx` onward: add 1 per
successful entry, `break` at the first unsuccessful one. -/
def wScan : List DailyPlanEntry → ℤ
  | [] => 0
  | e :: es => if is_success_w e then 1 + wScan es else 0

/-- The diet loop: add 1 per `is_diet_completed` entry, `break` at the
first incomplete one. -/
def dScan : List DailyPlanEntry → ℤ
  | [] => 0
  | e :: es => if e.is_diet_completed then 1 + dScan es else 0

/-- Workout streak over the fetched entry list (`w_streak_temp`): if the
newest entry is dated today it contributes 1 exactly when `workout_done`,
never breaks, and the loop starts at index 1; otherwise the loop starts at
index 0. -/
def workoutStreak (entries : List DailyPlanEntry) (today : ℤ) : ℤ :=
  match entries with
  | [] => 0
  | first_entry :: rest =>
    if first_entry.date = today then
      (if is_success_w first_entry then 1 else 0) + wScan rest
    else
      wScan (first_entry :: rest)

/-- Diet streak over the fetched entry list (`d_streak_count`): today's
entry contributes 1 exactly when `is_diet_completed`, never breaks, and the
loop starts at index 1; otherwise the loop starts at index 0. -/
def dietStreak (entries : List DailyPlanEntry) (today : ℤ) : ℤ :=
  match entries with
  | [] => 0
  | first_entry :: rest =>
    if first_entry.date = today then
      (if first_entry.is_diet_completed then 1 else 0) + dScan rest
    else
      dScan (first_entry :: rest)

/-- Result dictionary `{"workout": _, "diet": _}`. -/
structure StreakResult where
  workout : ℤ
  diet : ℤ
  deriving DecidableEq, Repr

/-- Outcome of one `calculate_streaks` call: the returned dictionary, the
user record after the call (`none` when the argument was `None`), and
whether `db.session.commit()` ran. -/
structure CalcOutcome where
  result : StreakResult
  user : Option User
  committed : Bool
  deriving DecidableEq, Repr

/-- Embedding of `calculate_streaks(user)`: guard clauses for a missing
user, a missing plan and an empty entry list; the two scans; then the
conditional overwrite-and-commit of the user's stored streak fields. -/
def calculate_streaks (db : DB) (today : ℤ) : Option User → CalcOutcome
  | none => ⟨⟨0, 0⟩, none, false⟩
  | some user =>
    match firstPlanByCreatedDesc (db.plans.filter fun p => p.user_id == user.id) with
    | none => ⟨⟨0, 0⟩, some user, false⟩
    | some plan =>
      let entries := fetchEntries db plan.id today
      if entries.isEmpty then ⟨⟨0, 0⟩, some user, false⟩
      else
        let w_streak_temp := workoutStreak entries today
        let d_streak_count := dietStreak entries today
        if w_streak_temp ≠ user.workout_streak ∨ d_streak_count ≠ user.diet_streak then
          ⟨⟨w_streak_temp, d_streak_count⟩,
           some { user with workout_streak := w_streak_temp,
                            diet_streak := d_streak_count },
           true⟩
        else
          ⟨⟨w_streak_temp, d_streak_count⟩, some user, false⟩

/-- Embedding of the wrapper `compute_streaks(user_id, plan_id)`:
`User.query.get(user_id)` then delegate; `plan_id` is never read. -/
def compute_streaks (db : DB) (today : ℤ) (user_id : ℕ) (plan_id : ℕ) : CalcOutcome :=
  calculate_streaks db today (db.users.find? fun u => u.id == user_id)

/-! ### Specification-side definitions -/

/-- Modelled from the spec's wording of the rate table: membership of the
normalized goal in the three word lists, default otherwise. -/
def specRate (goal_lower : String) : ℚ :=
  if goal_lower ∈ ["fat_loss", "lose", "weight_loss"] then 55/100
  else if goal_lower ∈ ["muscle_gain", "gain", "bulk"] then 3/10
  else if goal_lower ∈ ["recomposition", "recomp"] then 2/10
  else 4/10

/-- Modelled from the spec's wording of the estimator contract: `0` when a
weight is missing or the gap is below `0.1`, else
`max(7, floor(gap / rate * 7))` with the rate from the case-insensitive
table. -/
def estimate_transformation_days_spec (weight target : Option ℚ) (goal : Option String) : ℤ :=
  match weight, target with
  | some current, some tgt =>
    if |tgt - current| < 1/10 then 0
    else max 7 ⌊|tgt - current| / specRate (lower (goal.getD "")) * 7⌋
  | _, _ => 0

/-- The three boolean flags of an entry, in order: exercise day, exercise
completed, diet completed. -/
def flagsOf (e : DailyPlanEntry) : Bool × Bool × Bool :=
  (e.is_exercise_day, e.is_exercise_completed, e.is_diet_completed)

/-- Whether the newest (first) entry of the list is dated today. -/
def headIsToday (entries : List DailyPlanEntry) (today : ℤ) : Bool :=
  match entries with
  | [] => false
  | e :: _ => e.date == today

/-- The list is ordered newest-first: every later entry has a date no
larger than every earlier one. -/
def sortedNewestFirst (entries : List DailyPlanEntry) : Prop :=
  List.Pairwise (fun a b => b.date ≤ a.date) entries

instance (entries : List DailyPlanEntry) : Decidable (sortedNewestFirst entries) :=
  inferInstanceAs
    (Decidable (List.Pairwise (fun a b : DailyPlanEntry => b.date ≤ a.date) entries))

/-! ### Helper lemmas about the scan loops -/

theorem wScan_eq_takeWhile : ∀ es : List DailyPlanEntry,
    wScan es = ((es.takeWhile is_success_w).length : ℤ)
  | [] => rfl
  | e :: es => by
    by_cases h : is_success_w e
    · simp only [wScan, h, if_true, List.takeWhile_cons, List.length_cons,
        wScan_eq_takeWhile es]
      push_cast
      ring
    · simp [wScan, h, List.takeWhile_cons]

theorem dScan_eq_takeWhile : ∀ es : List DailyPlanEntry,
    dScan es = ((es.takeWhile fun e => e.is_diet_completed).length : ℤ)
  | [] => rfl
  | e :: es => by
    by_cases h : e.is_diet_completed
    · simp only [dScan, h, if_true, List.takeWhile_cons, List.length_cons,
        dScan_eq_takeWhile es]
      push_cast
      ring
    · simp [dScan, h, List.takeWhile_cons]

theorem wScan_bounds : ∀ es : List DailyPlanEntry,
    0 ≤ wScan es ∧ wScan es ≤ (es.length : ℤ)
  | [] => by simp [wScan]
  | e :: es => by
    have ih := wScan_bounds es
    cases h : is_success_w e <;> simp [wScan, h] <;> push_cast <;> omega

theorem dScan_bounds : ∀ es : List DailyPlanEntry,
    0 ≤ dScan es ∧ dScan es ≤ (es.length : ℤ)
  | [] => by simp [dScan]
  | e :: es => by
    have ih := dScan_bounds es
    cases h : e.is_diet_completed <;> simp [dScan, h] <;> push_cast <;> omega

theorem wScan_congr : ∀ es₁ es₂ : List DailyPlanEntry,
    es₁.map flagsOf = es₂.map flagsOf → wScan es₁ = wScan es₂
  | [], [], _ => rfl
  | [], _ :: _, h => by simp at h
  | _ :: _, [], h => by simp at h
  | e₁ :: es₁, e₂ :: es₂, h => by
    simp only [List.map_cons, List.cons.injEq, flagsOf, Prod.mk.injEq] at h
    obtain ⟨⟨hx, hc, _⟩, ht⟩ := h
    simp only [wScan, is_success_w, hx, hc, wScan_congr es₁ es₂ ht]

theorem dScan_congr : ∀ es₁ es₂ : List DailyPlanEntry,
    es₁.map flagsOf = es₂.map flagsOf → dScan es₁ = dScan es₂
  | [], [], _ => rfl
  | [], _ :: _, h => by simp at h
  | _ :: _, [], h => by simp at h
  | e₁ :: es₁, e₂ :: es₂, h => by
    simp only [List.map_cons, List.cons.injEq, flagsOf, Prod.mk.injEq] at h
    obtain ⟨⟨_, _, hd⟩, ht⟩ := h
    simp only [dScan, hd, dScan_congr es₁ es₂ ht]

theorem workoutStreak_bounds (es : List DailyPlanEntry) (today : ℤ) :
    0 ≤ workoutStreak es today ∧ workoutStreak es today ≤ (es.length : ℤ) := by
  match es with
  | [] => simp [workoutStreak]
  | first_entry :: rest =>
    have hb := wScan_bounds rest
    have hb' := wScan_bounds (first_entry :: rest)
    simp only [workoutStreak]
    split
    · split <;> simp only [List.length_cons] <;> push_cast <;> omega
    · exact hb'

theorem dietStreak_bounds (es : List DailyPlanEntry) (today : ℤ) :
    0 ≤ dietStreak es today ∧ dietStreak es today ≤ (es.length : ℤ) := by
  match es with
  | [] => simp [dietStreak]
  | first_entry :: rest =>
    have hb := dScan_bounds rest
    have hb' := dScan_bounds (first_entry :: rest)
    simp only [dietStreak]
    split
    · split <;> simp only [List.length_cons] <;> push_cast <;> omega
    · exact hb'

theorem rate_per_week_eq_specRate (s : String) : rate_per_week s = specRate s := by
  simp only [rate_per_week, specRate, List.mem_cons, List.mem_singleton,
    List.not_mem_nil, or_false]

theorem rate_per_week_pos (s : String) : 0 < rate_per_week s := by
  unfold rate_per_week
  split_ifs <;> norm_num

/-! ### Claim theorems -/

/-- C3: full estimator contract — `estimate_transformation_days` returns 0
when a weight is missing or the gap is below 0.1, otherwise
`max(7, floor(gap / rate * 7))` with the rate drawn from the
case-insensitive goal table; in particular goal `fat_loss` from 80 to 70
gives 127 days. -/
theorem C3_estimator_full_contract :
    (∀ weight target goal,
        estimate_transformation_days weight target goal =
          estimate_transformation_days_spec weight target goal) ∧
    estimate_transformation_days (some 80) (some 70) (some "fat_loss") = 127 := by
  constructor
  · intro weight target goal
    match weight, target with
    | none, none => rfl
    | none, some t => rfl
    | some w, none => rfl
    | some w, some t =>
      simp only [estimate_transformation_days, estimate_transformation_days_spec,
        rate_per_week_eq_specRate]
  · have hr : rate_per_week (lower ((some "fat_loss").getD "")) = 55/100 := by
      have hl : lower "fat_loss" = "fat_loss" := by decide
      simp [rate_per_week, hl]
    simp only [estimate_transformation_days, hr]
    norm_num

/-- C9: estimator monotonicity — with the goal fixed, a pair whose weight
gap is at least the other's (both present, both at least 0.1) is estimated
at least as many days. -/
theorem C9_estimator_monotone (goal : Option String) (w₁ t₁ w₂ t₂ : ℚ)
    (h₁ : 1/10 ≤ |t₁ - w₁|) (h₂ : 1/10 ≤ |t₂ - w₂|)
    (hle : |t₂ - w₂| ≤ |t₁ - w₁|) :
    estimate_transformation_days (some w₂) (some t₂) goal ≤
      estimate_transformation_days (some w₁) (some t₁) goal := by
  have hpos := rate_per_week_pos (lower (goal.getD ""))
  simp only [estimate_transformation_days]
  rw [if_neg (not_lt.mpr h₁), if_neg (not_lt.mpr h₂)]
  refine max_le_max le_rfl (Int.floor_le_floor ?_)
  exact mul_le_mul_of_nonneg_right
    (div_le_div_of_nonneg_right hle hpos.le) (by norm_num)

/-- Witness for C9 at goal `none`, gaps 10 and 5. -/
theorem C9_estimator_monotone_witness :
    1/10 ≤ |(10:ℚ) - 0| ∧ 1/10 ≤ |(5:ℚ) - 0| ∧ |(5:ℚ) - 0| ≤ |(10:ℚ) - 0| ∧
    estimate_transformation_days (some 0) (some 5) none ≤
      estimate_transformation_days (some 0) (some 10) none :=
  ⟨by norm_num, by norm_num, by norm_num,
   C9_estimator_monotone none 0 10 0 5 (by norm_num) (by norm_num) (by norm_num)⟩

/-- C1: workout pending-today — when the newest entry is dated today and is
an uncompleted exercise day, it neither counts nor breaks: the workout
streak is the number of consecutive successful older entries, stopping at
the first unsuccessful one. -/
theorem C1_workout_pending_today (first_entry : DailyPlanEntry)
    (rest : List DailyPlanEntry) (today : ℤ)
    (hsorted : sortedNewestFirst (first_entry :: rest))
    (hdate : first_entry.date = today)
    (hex : first_entry.is_exercise_day = true)
    (hnc : first_entry.is_exercise_completed = false) :
    workoutStreak (first_entry :: rest) today =
      ((rest.takeWhile is_success_w).length : ℤ) := by
  have hfail : is_success_w first_entry = false := by
    simp [is_success_w, hex, hnc]
  simp only [workoutStreak]
  rw [if_pos hdate, hfail]
  simp [wScan_eq_takeWhile]

/-- Witness for C1 on the spec's example: pending today, rest day, then a
completed exercise day — workout streak 2. -/
theorem C1_workout_pending_today_witness :
    sortedNewestFirst [⟨1, 10, true, false, false⟩, ⟨1, 9, false, false, true⟩,
        ⟨1, 8, true, true, false⟩] ∧
    workoutStreak [⟨1, 10, true, false, false⟩, ⟨1, 9, false, false, true⟩,
        ⟨1, 8, true, true, false⟩] 10 = 2 := by
  refine ⟨by decide, ?_⟩
  have h := C1_workout_pending_today ⟨1, 10, true, false, false⟩
      [⟨1, 9, false, false, true⟩, ⟨1, 8, true, true, false⟩] 10 (by decide) rfl rfl rfl
  rw [h]
  decide

/-- C2: diet pending-today — when the newest entry is dated today with diet
not completed, it is excluded without breaking: the diet streak is the
number of consecutive diet-completed older entries, stopping at the first
incomplete one. -/
theorem C2_diet_pending_today (first_entry : DailyPlanEntry)
    (rest : List DailyPlanEntry) (today : ℤ)
    (hsorted : sortedNewestFirst (first_entry :: rest))
    (hdate : first_entry.date = today)
    (hnd : first_entry.is_diet_completed = false) :
    dietStreak (first_entry :: rest) today =
      ((rest.takeWhile fun e => e.is_diet_completed).length : ℤ) := by
  simp only [dietStreak]
  rw [if_pos hdate, hnd]
  simp [dScan_eq_takeWhile]

/-- Witness for C2 on the spec's example: today incomplete, yesterday
complete, day-before incomplete — diet streak 1. -/
theorem C2_diet_pending_today_witness :
    sortedNewestFirst [⟨1, 10, false, false, false⟩, ⟨1, 9, false, false, true⟩,
        ⟨1, 8, false, false, false⟩] ∧
    dietStreak [⟨1, 10, false, false, false⟩, ⟨1, 9, false, false, true⟩,
        ⟨1, 8, false, false, false⟩] 10 = 1 := by
  refine ⟨by decide, ?_⟩
  have h := C2_diet_pending_today ⟨1, 10, false, false, false⟩
      [⟨1, 9, false, false, true⟩, ⟨1, 8, false, false, false⟩] 10 (by decide) rfl rfl
  rw [h]
  decide

/-- C7: gap invisibility — the two streak counts depend only on the
ordered flag sequence and on whether the newest entry is dated today; date
gaps are invisible to the scan. -/
theorem C7_gap_invisibility (es₁ es₂ : List DailyPlanEntry) (t₁ t₂ : ℤ)
    (hflags : es₁.map flagsOf = es₂.map flagsOf)
    (htoday : headIsToday es₁ t₁ = headIsToday es₂ t₂) :
    workoutStreak es₁ t₁ = workoutStreak es₂ t₂ ∧
      dietStreak es₁ t₁ = dietStreak es₂ t₂ := by
  match es₁, es₂ with
  | [], [] => exact ⟨rfl, rfl⟩
  | [], _ :: _ => simp at hflags
  | _ :: _, [] => simp at hflags
  | e₁ :: es₁, e₂ :: es₂ =>
    have hall : (e₁ :: es₁).map flagsOf = (e₂ :: es₂).map flagsOf := hflags
    simp only [List.map_cons, List.cons.injEq, flagsOf, Prod.mk.injEq] at hflags
    obtain ⟨⟨hx, hc, hd⟩, ht⟩ := hflags
    simp only [headIsToday] at htoday
    by_cases h₁ : e₁.date = t₁
    · have h₂ : e₂.date = t₂ := by
        have : (e₂.date == t₂) = true := by
          rw [← htoday]
          exact beq_iff_eq.mpr h₁
        exact beq_iff_eq.mp this
      constructor
      · simp only [workoutStreak, if_pos h₁, if_pos h₂, is_success_w, hx, hc,
          wScan_congr es₁ es₂ ht]
      · simp only [dietStreak, if_pos h₁, if_pos h₂, hd, dScan_congr es₁ es₂ ht]
    · have h₂ : ¬ e₂.date = t₂ := by
        intro hcon
        apply h₁
        have : (e₁.date == t₁) = true := by
          rw [htoday]
          exact beq_iff_eq.mpr hcon
        exact beq_iff_eq.mp this
      exact ⟨by simp only [workoutStreak, if_neg h₁, if_neg h₂,
                wScan_congr _ _ hall],
             by simp only [dietStreak, if_neg h₁, if_neg h₂,
                dScan_congr _ _ hall]⟩

/-- Witness for C7: one contiguous list and one with a calendar gap, same
flags, newest entry dated today in both — identical streaks. -/
theorem C7_gap_invisibility_witness :
    ([⟨1, 10, true, true, true⟩, ⟨1, 9, false, false, true⟩]
        : List DailyPlanEntry).map flagsOf =
      ([⟨2, 10, true, true, true⟩, ⟨2, 3, false, false, true⟩]
        : List DailyPlanEntry).map flagsOf ∧
    headIsToday [⟨1, 10, true, true, true⟩, ⟨1, 9, false, false, true⟩] 10 =
      headIsToday [⟨2, 10, true, true, true⟩, ⟨2, 3, false, false, true⟩] 10 ∧
    workoutStreak [⟨1, 10, true, true, true⟩, ⟨1, 9, false, false, true⟩] 10 =
      workoutStreak [⟨2, 10, true, true, true⟩, ⟨2, 3, false, false, true⟩] 10 ∧
    dietStreak [⟨1, 10, true, true, true⟩, ⟨1, 9, false, false, true⟩] 10 =
      dietStreak [⟨2, 10, true, true, true⟩, ⟨2, 3, false, false, true⟩] 10 := by
  refine ⟨by decide, by decide, ?_⟩
  exact C7_gap_invisibility
    [⟨1, 10, true, true, true⟩, ⟨1, 9, false, false, true⟩]
    [⟨2, 10, true, true, true⟩, ⟨2, 3, false, false, true⟩] 10 10
    (by decide) (by decide)

/-- C8: the wrapper ignores `plan_id` — `compute_streaks` gives identical
outcomes for any two plan ids, since it only looks up the user and
delegates. -/
theorem C8_wrapper_ignores_plan_id (db : DB) (today : ℤ) (user_id p₁ p₂ : ℕ) :
    compute_streaks db today user_id p₁ = compute_streaks db today user_id p₂ := rfl

/-- Unfolding of `calculate_streaks` on the full computation path: user
present, a plan resolved, a non-empty entry list. -/
theorem calculate_streaks_full_path (db : DB) (today : ℤ) (user : User) (plan : UserPlan)
    (hplan : firstPlanByCreatedDesc (db.plans.filter fun p => p.user_id == user.id)
      = some plan)
    (hne : fetchEntries db plan.id today ≠ []) :
    calculate_streaks db today (some user) =
      if workoutStreak (fetchEntries db plan.id today) today ≠ user.workout_streak ∨
         dietStreak (fetchEntries db plan.id today) today ≠ user.diet_streak then
        ⟨⟨workoutStreak (fetchEntries db plan.id today) today,
          dietStreak (fetchEntries db plan.id today) today⟩,
         some { user with
            workout_streak := workoutStreak (fetchEntries db plan.id today) today,
            diet_streak := dietStreak (fetchEntries db plan.id today) today },
         true⟩
      else
        ⟨⟨workoutStreak (fetchEntries db plan.id today) today,
          dietStreak (fetchEntries db plan.id today) today⟩,
         some user, false⟩ := by
  have hie : (fetchEntries db plan.id today).isEmpty = false := by
    simp [List.isEmpty_iff, hne]
  simp only [calculate_streaks, hplan, hie, Bool.false_eq_true, if_false]

/-- C4: conditional persistence — on the full path the commit happens
exactly when the computed pair differs from the stored pair; a commit
overwrites both fields, no commit leaves the user record untouched, and
the returned dictionary is the computed pair. -/
theorem C4_conditional_persistence (db : DB) (today : ℤ) (user : User) (plan : UserPlan)
    (hplan : firstPlanByCreatedDesc (db.plans.filter fun p => p.user_id == user.id)
      = some plan)
    (hne : fetchEntries db plan.id today ≠ []) :
    ((calculate_streaks db today (some user)).committed = true ↔
      (workoutStreak (fetchEntries db plan.id today) today ≠ user.workout_streak ∨
       dietStreak (fetchEntries db plan.id today) today ≠ user.diet_streak)) ∧
    ((calculate_streaks db today (some user)).committed = true →
      (calculate_streaks db today (some user)).user =
        some { user with
          workout_streak := workoutStreak (fetchEntries db plan.id today) today,
          diet_streak := dietStreak (fetchEntries db plan.id today) today }) ∧
    ((calculate_streaks db today (some user)).committed = false →
      (calculate_streaks db today (some user)).user = some user) ∧
    (calculate_streaks db today (some user)).result =
      ⟨workoutStreak (fetchEntries db plan.id today) today,
       dietStreak (fetchEntries db plan.id today) today⟩ := by
  rw [calculate_streaks_full_path db today user plan hplan hne]
  by_cases hch : workoutStreak (fetchEntries db plan.id today) today ≠ user.workout_streak ∨
      dietStreak (fetchEntries db plan.id today) today ≠ user.diet_streak
  · simp [hch]
  · simp [hch]

/-- Witness for C4: a one-plan, one-entry store where the computed pair
(1, 1) differs from the stored pair (0, 0), so the call commits. -/
theorem C4_conditional_persistence_witness :
    firstPlanByCreatedDesc
        ((DB.mk [UserPlan.mk 5 7 100] [DailyPlanEntry.mk 5 10 true true true]
          []).plans.filter fun p => p.user_id == (User.mk 7 0 0).id)
      = some (UserPlan.mk 5 7 100) ∧
    fetchEntries (DB.mk [UserPlan.mk 5 7 100] [DailyPlanEntry.mk 5 10 true true true] [])
        (UserPlan.mk 5 7 100).id 10 ≠ [] ∧
    (calculate_streaks (DB.mk [UserPlan.mk 5 7 100]
        [DailyPlanEntry.mk 5 10 true true true] []) 10
        (some (User.mk 7 0 0))).committed = true := by
  refine ⟨by decide, by decide, ?_⟩
  exact (C4_conditional_persistence
    (DB.mk [UserPlan.mk 5 7 100] [DailyPlanEntry.mk 5 10 true true true] [])
    10 (User.mk 7 0 0) (UserPlan.mk 5 7 100) (by decide) (by decide)).1.mpr (by decide)

/-- C5: absent-input defaults — a missing user, a user without a plan, or
an empty fetched entry list all yield `{workout: 0, diet: 0}` with no user
write and no commit. -/
theorem C5_absent_input_defaults (db : DB) (today : ℤ) (u? : Option User)
    (h : u? = none ∨
      (∃ user, u? = some user ∧
        firstPlanByCreatedDesc (db.plans.filter fun p => p.user_id == user.id) = none) ∨
      (∃ user plan, u? = some user ∧
        firstPlanByCreatedDesc (db.plans.filter fun p => p.user_id == user.id)
          = some plan ∧
        fetchEntries db plan.id today = [])) :
    calculate_streaks db today u? = ⟨⟨0, 0⟩, u?, false⟩ := by
  rcases h with rfl | ⟨user, rfl, hplan⟩ | ⟨user, plan, rfl, hplan, hemp⟩
  · rfl
  · simp [calculate_streaks, hplan]
  · simp [calculate_streaks, hplan, hemp]

/-- Witness for C5 at a missing user over an empty store. -/
theorem C5_absent_input_defaults_witness :
    ((none : Option User) = none ∨
      (∃ user, (none : Option User) = some user ∧
        firstPlanByCreatedDesc ((DB.mk [] [] []).plans.filter
          fun p => p.user_id == user.id) = none) ∨
      (∃ user plan, (none : Option User) = some user ∧
        firstPlanByCreatedDesc ((DB.mk [] [] []).plans.filter
          fun p => p.user_id == user.id) = some plan ∧
        fetchEntries (DB.mk [] [] []) plan.id 0 = [])) ∧
    calculate_streaks (DB.mk [] [] []) 0 none = ⟨⟨0, 0⟩, none, false⟩ :=
  ⟨Or.inl rfl, C5_absent_input_defaults (DB.mk [] [] []) 0 none (Or.inl rfl)⟩

/-- C6: idempotence — re-running `calculate_streaks` on the user record
left by a first run, with the store unchanged, returns the first run's
result and performs no second commit. -/
theorem C6_idempotent_recomputation (db : DB) (today : ℤ) (u? : Option User) :
    calculate_streaks db today ((calculate_streaks db today u?).user) =
      ⟨(calculate_streaks db today u?).result,
       (calculate_streaks db today u?).user, false⟩ := by
  match u? with
  | none => rfl
  | some user =>
    rcases hplan : firstPlanByCreatedDesc (db.plans.filter fun p => p.user_id == user.id)
      with _ | plan
    · simp [calculate_streaks, hplan]
    · by_cases hemp : fetchEntries db plan.id today = []
      · simp [calculate_streaks, hplan, hemp]
      · rw [calculate_streaks_full_path db today user plan hplan hemp]
        by_cases hch :
            workoutStreak (fetchEntries db plan.id today) today ≠ user.workout_streak ∨
            dietStreak (fetchEntries db plan.id today) today ≠ user.diet_streak
        · rw [if_pos hch]
          rw [calculate_streaks_full_path db today
            { user with
              workout_streak := workoutStreak (fetchEntries db plan.id today) today,
              diet_streak := dietStreak (fetchEntries db plan.id today) today }
            plan hplan hemp]
          simp
        · rw [if_neg hch]
          rw [calculate_streaks_full_path db today user plan hplan hemp, if_neg hch]

/-- C10: computed streak bounds — on the full path each returned count lies
between 0 and the number of fetched entries. -/
theorem C10_streak_bounds (db : DB) (today : ℤ) (user : User) (plan : UserPlan)
    (hplan : firstPlanByCreatedDesc (db.plans.filter fun p => p.user_id == user.id)
      = some plan)
    (hne : fetchEntries db plan.id today ≠ []) :
    0 ≤ (calculate_streaks db today (some user)).result.workout ∧
    (calculate_streaks db today (some user)).result.workout ≤
      ((fetchEntries db plan.id today).length : ℤ) ∧
    0 ≤ (calculate_streaks db today (some user)).result.diet ∧
    (calculate_streaks db today (some user)).result.diet ≤
      ((fetchEntries db plan.id today).length : ℤ) := by
  have hw := workoutStreak_bounds (fetchEntries db plan.id today) today
  have hd := dietStreak_bounds (fetchEntries db plan.id today) today
  rw [calculate_streaks_full_path db today user plan hplan hne]
  split_ifs with hch <;> exact ⟨hw.1, hw.2, hd.1, hd.2⟩

/-- Witness for C10 on a one-plan, one-entry store. -/
theorem C10_streak_bounds_witness :
    firstPlanByCreatedDesc
        ((DB.mk [UserPlan.mk 5 7 100] [DailyPlanEntry.mk 5 10 true true true]
          []).plans.filter fun p => p.user_id == (User.mk 7 1 1).id)
      = some (UserPlan.mk 5 7 100) ∧
    fetchEntries (DB.mk [UserPlan.mk 5 7 100] [DailyPlanEntry.mk 5 10 true true true] [])
        (UserPlan.mk 5 7 100).id 10 ≠ [] ∧
    (0 ≤ (calculate_streaks (DB.mk [UserPlan.mk 5 7 100]
        [DailyPlanEntry.mk 5 10 true true true] []) 10
        (some (User.mk 7 1 1))).result.workout ∧
     (calculate_streaks (DB.mk [UserPlan.mk 5 7 100]
        [DailyPlanEntry.mk 5 10 true true true] []) 10
        (some (User.mk 7 1 1))).result.workout ≤
       ((fetchEntries (DB.mk [UserPlan.mk 5 7 100]
          [DailyPlanEntry.mk 5 10 true true true] [])
          (UserPlan.mk 5 7 100).id 10).length : ℤ) ∧
     0 ≤ (calculate_streaks (DB.mk [UserPlan.mk 5 7 100]
        [DailyPlanEntry.mk 5 10 true true true] []) 10
        (some (User.mk 7 1 1))).result.diet ∧
     (calculate_streaks (DB.mk [UserPlan.mk 5 7 100]
        [DailyPlanEntry.mk 5 10 true true true] []) 10
        (some (User.mk 7 1 1))).result.diet ≤
       ((fetchEntries (DB.mk [UserPlan.mk 5 7 100]
          [DailyPlanEntry.mk 5 10 true true true] [])
          (UserPlan.mk 5 7 100).id 10).length : ℤ)) :=
  ⟨by decide, by decide,
   C10_streak_bounds
     (DB.mk [UserPlan.mk 5 7 100] [DailyPlanEntry.mk 5 10 true true true] [])
     10 (User.mk 7 1 1) (UserPlan.mk 5 7 100) (by decide) (by decide)⟩

end GymSphere
